import Mathlib

/-!
Verification of the rust-hyper-server repository against its natural-language
specification.  Rust code is shallowly embedded: durations and system times
are nanosecond counts (`Nat`), fallible operations return `Except`/`Option`,
and machine-integer conversions are made explicit.
-/

/-! ## String primitives

Models of the Rust `str` operations used by the handler: `starts_with`,
`contains` and `ends_with`.  Rust matches on UTF-8 bytes, but for ASCII
patterns inside valid UTF-8 strings a byte match coincides with a
character-sequence match, so we work on `List Char`.
-/

/-- `charsHaveLead pat l` is true iff `pat` is a leading run of `l`. -/
def charsHaveLead : List Char → List Char → Bool
  | [], _ => true
  | _ :: _, [] => false
  | p :: ps, c :: cs => p == c && charsHaveLead ps cs

/-- `charsContain pat l` is true iff `pat` occurs contiguously inside `l`. -/
def charsContain (pat : List Char) : List Char → Bool
  | [] => pat.isEmpty
  | c :: cs => charsHaveLead pat (c :: cs) || charsContain pat cs

/-- Model of Rust `s.starts_with(pat)`. -/
def strHasLead (s pat : String) : Bool :=
  charsHaveLead pat.toList s.toList

/-- Model of Rust `s.contains(pat)` (substring containment). -/
def strContainsSub (s pat : String) : Bool :=
  charsContain pat.toList s.toList

/-- Model of Rust `s.ends_with(pat)`. -/
def strHasTail (s pat : String) : Bool :=
  charsHaveLead pat.toList.reverse s.toList.reverse

/-! ## hyper_staticfile resolver data (external crate)

Only the fields the repository reads are modelled.  `pathStr` is the value of
`path.to_str()`: `none` when the OS path is not valid UTF-8.  `modified` is
the file modification `SystemTime` in nanoseconds since the epoch, `none`
when unknown.
-/

structure ResolvedFile where
  pathStr : Option String
  modified : Option Nat
deriving DecidableEq, Repr

inductive ResolveResult
  | MethodNotMatched
  | NotFound
  | PermissionDenied
  | IsDirectory (redirect_to : String)
  | Found (resolved_file : ResolvedFile)
deriving DecidableEq, Repr

/-! ## Responses

`handlers/response_utils.rs` and `response.rs` are not under `src/`; only
their call sites are.  Responses are therefore an abstract datatype whose
constructors record exactly what the missing builders are given.
-/

/-- Modelled from the spec: `CacheControl` lives in the missing
`response.rs`; `NoCache` ("caching disabled") is the only variant the
embedded code uses. -/
inductive CacheControl
  | NoCache
deriving DecidableEq, Repr

inductive HttpResponse
  | statusCode (status : Nat) (cache : CacheControl)
  | permanentRedirect (location : String) (cache : CacheControl)
  | staticFile (result : ResolveResult) (cacheHeaders : Option Nat)
deriving DecidableEq, Repr

/-- Modelled from the spec: `build_premanent_redirect_response` (missing
`handlers/response_utils.rs`) builds a permanent-redirect response to the
given location with the given cache-control value. -/
def build_premanent_redirect_response (location : String) (cache : CacheControl) :
    HttpResponse :=
  HttpResponse.permanentRedirect location cache

/-- Modelled from the spec: `build_status_code_response` (missing
`handlers/response_utils.rs`) builds an empty response with the given status
code and cache-control value. -/
def build_status_code_response (status : Nat) (cache : CacheControl) :
    HttpResponse :=
  HttpResponse.statusCode status cache

/-! ## StaticFileHandler (src/handlers/static_file.rs) -/

/-- `const DEFAULT_CACHE_DURATION_SECONDS: u32 = 60 * 60;` -/
def DEFAULT_CACHE_DURATION_SECONDS : Nat := 60 * 60

/-- `const VNSTAT_PNG_CACHE_DURATION: Duration = Duration::from_secs(15 * 60);`
in nanoseconds. -/
def VNSTAT_PNG_CACHE_DURATION : Nat := 15 * 60 * 1000000000

/-- Rust `u32::MAX`: the largest value `u64::try_into::<u32>()` accepts. -/
def U32_MAX : Nat := 4294967295

structure StaticFileHandler where
  client_error_page_path : String
deriving DecidableEq, Repr

def StaticFileHandler.build_client_error_page_response (h : StaticFileHandler) :
    HttpResponse :=
  build_premanent_redirect_response h.client_error_page_path CacheControl.NoCache

def StaticFileHandler.handle_resolve_errors (h : StaticFileHandler)
    (resolve_result : ResolveResult) : Option HttpResponse :=
  match resolve_result with
  | ResolveResult.MethodNotMatched =>
      some (build_status_code_response 400 CacheControl.NoCache)
  | ResolveResult.NotFound => some h.build_client_error_page_response
  | ResolveResult.PermissionDenied => some h.build_client_error_page_response
  | _ => none

def StaticFileHandler.block_dot_paths (h : StaticFileHandler)
    (resolve_result : ResolveResult) : Option HttpResponse :=
  let str_path_option : Option String :=
    match resolve_result with
    | ResolveResult.Found resolved_file => resolved_file.pathStr
    | ResolveResult.IsDirectory redirect_to => some redirect_to
    | _ => none
  match str_path_option with
  | some str_path =>
      if strHasLead str_path "." || strContainsSub str_path "/." then
        some h.build_client_error_page_response
      else
        none
  | none => none

/-- The handler's cache computation: non-vnstat files get the fixed default;
`vnstat/…*.png` files get `max(0, modified + 15min − now)` truncated to whole
seconds, with the `u64 → u32` conversion falling back to `0` on overflow
(`try_into().unwrap_or_default()`). -/
def StaticFileHandler.build_cache_headers (h : StaticFileHandler)
    (resolve_result : ResolveResult) (now : Nat) : Option Nat :=
  match resolve_result with
  | ResolveResult.Found resolved_file =>
      let str_path := resolved_file.pathStr.getD ""
      if !(strContainsSub str_path "vnstat/" && strHasTail str_path ".png") then
        some DEFAULT_CACHE_DURATION_SECONDS
      else
        match resolved_file.modified with
        | none => some 0
        | some modified =>
            let file_expiration := modified + VNSTAT_PNG_CACHE_DURATION
            let cache_duration := file_expiration - now
            let secs := cache_duration / 1000000000
            some (if secs ≤ U32_MAX then secs else 0)
  | _ => none

/-- `RequestHandler::handle` for the static-file handler.  The resolver call
and `hyper_staticfile::ResponseBuilder::build` are external effects, passed in
as the resolver outcome and a success flag for the builder. -/
def StaticFileHandler.handle (h : StaticFileHandler)
    (resolve_outcome : Except Unit ResolveResult) (now : Nat)
    (builder_ok : Bool) : HttpResponse :=
  match resolve_outcome with
  | Except.error _ => build_status_code_response 500 CacheControl.NoCache
  | Except.ok resolve_result =>
      match h.handle_resolve_errors resolve_result with
      | some response => response
      | none =>
          match h.block_dot_paths resolve_result with
          | some response => response
          | none =>
              let cache_headers := h.build_cache_headers resolve_result now
              if builder_ok then
                HttpResponse.staticFile resolve_result cache_headers
              else
                build_status_code_response 500 CacheControl.NoCache

/-! ## Static-file rule engine (src/static_file.rs)

A `regex::Regex` is external; a compiled pattern is modelled as its match
function `String → Bool`.  Durations are nanosecond counts.
-/

inductive CacheRule
  | FixedTimeCacheHeaderRule (path_regex : String → Bool)
      (file_cache_duration : Nat)
  | ModificationTimePlusDeltaCacheHeaderRule (path_regex : String → Bool)
      (file_cache_duration : Nat)

def CacheRule.matches : CacheRule → String → Bool
  | CacheRule.FixedTimeCacheHeaderRule path_regex _, resolved_path =>
      path_regex resolved_path
  | CacheRule.ModificationTimePlusDeltaCacheHeaderRule path_regex _,
      resolved_path => path_regex resolved_path

/-- `CacheRule::build_cache_header`.  For `ModificationTimePlusDelta`,
`file_expiration.duration_since(now).unwrap_or_default()` is truncated
subtraction on nanoseconds: `max(0, (modified + delta) − now)`. -/
def CacheRule.build_cache_header (rule : CacheRule) (resolved_file : ResolvedFile)
    (now : Nat) : Option Nat :=
  match rule with
  | CacheRule.FixedTimeCacheHeaderRule _ file_cache_duration =>
      some file_cache_duration
  | CacheRule.ModificationTimePlusDeltaCacheHeaderRule _ file_cache_duration =>
      match resolved_file.modified with
      | none => some 0
      | some modified =>
          let file_expiration := modified + file_cache_duration
          some (file_expiration - now)

structure StaticFileRulesService where
  cache_rules : List CacheRule

/-- `StaticFileRulesService::build_cache_header`: first matching rule wins,
no match means no caching directive. -/
def StaticFileRulesService.build_cache_header (s : StaticFileRulesService)
    (resolved_file : ResolvedFile) (now : Nat) : Option Nat :=
  let str_path := resolved_file.pathStr.getD ""
  ((s.cache_rules.find? (fun rule => rule.matches str_path)).map
    (fun rule => rule.build_cache_header resolved_file now)).getD none

/-- The vnstat-PNG condition hardcoded in the handler, as a pattern for the
rule engine. -/
def vnstatPngPattern (resolved_path : String) : Bool :=
  strContainsSub resolved_path "vnstat/" && strHasTail resolved_path ".png"

/-- The rule-engine configuration that mirrors the handler's hardcoded
cache policy: `ModTimePlusDelta(15min)` for vnstat PNGs, then
`FixedTime(1h)` for everything else. -/
def handlerCacheRules : StaticFileRulesService :=
  StaticFileRulesService.mk
    [CacheRule.ModificationTimePlusDeltaCacheHeaderRule vnstatPngPattern
        VNSTAT_PNG_CACHE_DURATION,
     CacheRule.FixedTimeCacheHeaderRule (fun _ => true)
        (DEFAULT_CACHE_DURATION_SECONDS * 1000000000)]

/-! ## Connection handler (src/server/connection.rs)

`handle_connection` races the protocol engine against a timer for each
configured duration in order.  The nondeterministic race is abstracted by a
predicate `engine_completes : Nat → Bool`: `engine_completes i` is true iff
during loop iteration `i` the protocol engine completes before that
iteration's timer fires.  The result is the list of graceful-shutdown
signals issued, each tagged with its iteration index and timer duration.
-/

structure ServerConfiguration where
  connection_max_lifetime : Nat
  connection_graceful_shutdown_timeout : Nat
deriving DecidableEq, Repr

structure ConnectionHandler where
  connection_timeout_durations : List Nat

/-- `ConnectionHandler::new`: the ordered timeout list is
`[connection_max_lifetime, connection_graceful_shutdown_timeout]`. -/
def ConnectionHandler.new (cfg : ServerConfiguration) : ConnectionHandler :=
  ConnectionHandler.mk
    [cfg.connection_max_lifetime, cfg.connection_graceful_shutdown_timeout]

/-- The `for (iter, sleep_duration)` loop body: on completion break with no
further signal, on timeout record one graceful-shutdown signal and advance
to the next timer. -/
def timeoutLoop (engine_completes : Nat → Bool) :
    List Nat → Nat → List (Nat × Nat)
  | [], _ => []
  | sleep_duration :: rest, iter =>
      if engine_completes iter then []
      else (iter, sleep_duration) :: timeoutLoop engine_completes rest (iter + 1)

/-- `ConnectionHandler::handle_connection`, reduced to the shutdown signals
it issues. -/
def ConnectionHandler.handle_connection (h : ConnectionHandler)
    (engine_completes : Nat → Bool) : List (Nat × Nat) :=
  timeoutLoop engine_completes h.connection_timeout_durations 0

/-! ## Connection-info handler (src/handlers/connection.rs) -/

inductive ServerProtocol
  | Http1
  | Http2
deriving DecidableEq, Repr

/-- Modelled from the spec: `ConnectionInfo` lives in the missing
`connection.rs`; the handler reads `connection_id()`, `creation_time()` and
`server_protocol()`.  `creation_time` is a timestamp in nanoseconds. -/
structure ConnectionInfo where
  connection_id : Nat
  creation_time : Nat
  server_protocol : ServerProtocol
deriving DecidableEq, Repr

structure ConnectionInfoDTO where
  connection_id : Nat
  creation_time : String
  server_protocol : ServerProtocol
deriving DecidableEq, Repr

/-- `impl From<&ConnectionInfo> for ConnectionInfoDTO`.  The timestamp
formatter `local_date_time_to_string` is not under `src/` and is passed in
abstractly. -/
def connectionInfoToDTO (fmt : Nat → String) (c : ConnectionInfo) :
    ConnectionInfoDTO :=
  ConnectionInfoDTO.mk c.connection_id (fmt c.creation_time) c.server_protocol

/-- The sort key comparison used by `connections.sort_by_key(|c| c.connection_id)`. -/
def dtoLe (a b : ConnectionInfoDTO) : Bool :=
  a.connection_id ≤ b.connection_id

/-- `ConnectionInfoHandler::handle`: take the tracker snapshot (an arbitrary
order, passed in as a list), map to DTOs, stable-sort by `connection_id`.
The resulting list is the `connections` array of the JSON response. -/
def ConnectionInfoHandler.handle (fmt : Nat → String)
    (tracked : List ConnectionInfo) : List ConnectionInfoDTO :=
  (tracked.map (connectionInfoToDTO fmt)).mergeSort dtoLe

/-! ## Server startup (src/server.rs)

`Server::run` on a Unix-domain listener: the filesystem is a predicate
saying which paths currently hold a socket file.  `tokio::fs::remove_file`
fails iff the path does not exist; `UnixListener::bind` fails iff a file is
already present at the path.
-/

structure FileSystem where
  socketFileAt : String → Bool

/-- Model of `tokio::fs::remove_file`: returns the new filesystem and the
result (`error` when the path does not exist). -/
def remove_file (fs : FileSystem) (path : String) :
    FileSystem × Except Unit Unit :=
  if fs.socketFileAt path then
    (FileSystem.mk (fun p => if p == path then false else fs.socketFileAt p),
     Except.ok ())
  else
    (fs, Except.error ())

/-- Model of `UnixListener::bind`: fails when a file already occupies the
path, otherwise creates the socket file. -/
def UnixListener.bind (fs : FileSystem) (path : String) :
    Except Unit FileSystem :=
  if fs.socketFileAt path then
    Except.error ()
  else
    Except.ok
      (FileSystem.mk (fun p => if p == path then true else fs.socketFileAt p))

inductive ServerEvent
  | removeFileCall (path : String)
  | bindCall (path : String)
deriving DecidableEq, Repr

/-- The bind prelude of `Server::run`: remove any pre-existing socket file,
ignore the removal result (`// do not fail on remove error`), then bind; the
event trace records the order of the two filesystem effects. -/
def Server.run (fs : FileSystem) (path : String) :
    List ServerEvent × Except Unit FileSystem :=
  let remove_result := remove_file fs path
  let bind_result := UnixListener.bind remove_result.1 path
  ([ServerEvent.removeFileCall path, ServerEvent.bindCall path], bind_result)

def exceptIsOk : Except Unit FileSystem → Bool
  | Except.ok _ => true
  | Except.error _ => false

/-! ## Concrete test fixtures -/

def pngOnlyRule : CacheRule :=
  CacheRule.FixedTimeCacheHeaderRule
    (fun resolved_path => strHasTail resolved_path ".png") 5

def catchAllRule : CacheRule :=
  CacheRule.FixedTimeCacheHeaderRule (fun _ => true) 3600

def extraRule : CacheRule :=
  CacheRule.FixedTimeCacheHeaderRule (fun _ => true) 7

def appJsFile : ResolvedFile := ResolvedFile.mk (some "assets/app.js") none

/-! ## Claim theorems -/

/-- C5: the static-file handler maps a resolver-unhandled method to 400 with
caching disabled, not-found and permission-denied to the permanent redirect
to the configured client-error page with caching disabled, and a resolver
failure to 500 with caching disabled; being a total function into
`HttpResponse`, it always returns a response. -/
theorem claim_C5 (h : StaticFileHandler) (now : Nat) (builder_ok : Bool) :
    h.handle (Except.error ()) now builder_ok
        = build_status_code_response 500 CacheControl.NoCache
    ∧ h.handle (Except.ok ResolveResult.MethodNotMatched) now builder_ok
        = build_status_code_response 400 CacheControl.NoCache
    ∧ h.handle (Except.ok ResolveResult.NotFound) now builder_ok
        = build_premanent_redirect_response h.client_error_page_path
            CacheControl.NoCache
    ∧ h.handle (Except.ok ResolveResult.PermissionDenied) now builder_ok
        = build_premanent_redirect_response h.client_error_page_path
            CacheControl.NoCache :=
  ⟨rfl, rfl, rfl, rfl⟩

/-- C1: a successfully resolved file whose path string starts with a dot or
has a dot-starting segment, and likewise any directory-redirect target, is
answered with the permanent redirect to the configured client-error page —
identical to the not-found response — and never with the file content. -/
theorem claim_C1 (h : StaticFileHandler) (f : ResolvedFile) (p target : String)
    (now : Nat) (builder_ok : Bool)
    (hpath : f.pathStr = some p)
    (hdotFile : (strHasLead p "." || strContainsSub p "/.") = true)
    (hdotDir : (strHasLead target "." || strContainsSub target "/.") = true) :
    h.handle (Except.ok (ResolveResult.Found f)) now builder_ok
        = h.handle (Except.ok ResolveResult.NotFound) now builder_ok
    ∧ h.handle (Except.ok (ResolveResult.Found f)) now builder_ok
        = build_premanent_redirect_response h.client_error_page_path
            CacheControl.NoCache
    ∧ (∀ ch, h.handle (Except.ok (ResolveResult.Found f)) now builder_ok
        ≠ HttpResponse.staticFile (ResolveResult.Found f) ch)
    ∧ h.handle (Except.ok (ResolveResult.IsDirectory target)) now builder_ok
        = build_premanent_redirect_response h.client_error_page_path
            CacheControl.NoCache := by
  have hblock : h.block_dot_paths (ResolveResult.Found f)
      = some h.build_client_error_page_response := by
    simp [StaticFileHandler.block_dot_paths, hpath, hdotFile]
  have hblockDir : h.block_dot_paths (ResolveResult.IsDirectory target)
      = some h.build_client_error_page_response := by
    simp [StaticFileHandler.block_dot_paths, hdotDir]
  refine ⟨?_, ?_, ?_, ?_⟩
  · simp [StaticFileHandler.handle, StaticFileHandler.handle_resolve_errors,
      hblock, StaticFileHandler.build_client_error_page_response]
  · simp [StaticFileHandler.handle, StaticFileHandler.handle_resolve_errors,
      hblock, StaticFileHandler.build_client_error_page_response]
  · intro ch
    simp [StaticFileHandler.handle, StaticFileHandler.handle_resolve_errors,
      hblock, StaticFileHandler.build_client_error_page_response,
      build_premanent_redirect_response]
  · simp [StaticFileHandler.handle, StaticFileHandler.handle_resolve_errors,
      hblockDir, StaticFileHandler.build_client_error_page_response]

/-- Witness for C1 at the spec's two examples `.env` and `a/.git/config`. -/
theorem claim_C1_witness :
    (ResolvedFile.mk (some ".env") none).pathStr = some ".env"
    ∧ (strHasLead ".env" "." || strContainsSub ".env" "/.") = true
    ∧ (strHasLead "a/.git/config" "." || strContainsSub "a/.git/config" "/.") = true
    ∧ (StaticFileHandler.mk "/error").handle
        (Except.ok (ResolveResult.Found (ResolvedFile.mk (some ".env") none))) 0 true
        = build_premanent_redirect_response "/error" CacheControl.NoCache
    ∧ (StaticFileHandler.mk "/error").handle
        (Except.ok (ResolveResult.IsDirectory "a/.git/config")) 0 true
        = build_premanent_redirect_response "/error" CacheControl.NoCache :=
  ⟨rfl, by decide, by decide,
   (claim_C1 (StaticFileHandler.mk "/error") (ResolvedFile.mk (some ".env") none)
      ".env" "a/.git/config" 0 true rfl (by decide) (by decide)).2.1,
   (claim_C1 (StaticFileHandler.mk "/error") (ResolvedFile.mk (some ".env") none)
      ".env" "a/.git/config" 0 true rfl (by decide) (by decide)).2.2.2⟩

/-- C9: when the resolved filesystem path is not valid UTF-8
(`path.to_str()` is `none`), `block_dot_paths` blocks nothing and the
request proceeds to normal file serving. -/
theorem claim_C9 (h : StaticFileHandler) (f : ResolvedFile) (now : Nat)
    (hpath : f.pathStr = none) :
    h.block_dot_paths (ResolveResult.Found f) = none
    ∧ h.handle (Except.ok (ResolveResult.Found f)) now true
        = HttpResponse.staticFile (ResolveResult.Found f)
            (h.build_cache_headers (ResolveResult.Found f) now) := by
  have hblock : h.block_dot_paths (ResolveResult.Found f) = none := by
    simp [StaticFileHandler.block_dot_paths, hpath]
  refine ⟨hblock, ?_⟩
  simp [StaticFileHandler.handle, StaticFileHandler.handle_resolve_errors, hblock]

/-- Witness for C9. -/
theorem claim_C9_witness :
    (ResolvedFile.mk none none).pathStr = none
    ∧ (StaticFileHandler.mk "/error").handle
        (Except.ok (ResolveResult.Found (ResolvedFile.mk none none))) 0 true
        = HttpResponse.staticFile (ResolveResult.Found (ResolvedFile.mk none none))
            ((StaticFileHandler.mk "/error").build_cache_headers
              (ResolveResult.Found (ResolvedFile.mk none none)) 0) :=
  ⟨rfl, (claim_C9 (StaticFileHandler.mk "/error") (ResolvedFile.mk none none) 0
      rfl).2⟩

/-- C3: a `ModTimePlusDelta` rule returns zero when no modification time is
known, and otherwise `max(0, (modification_time + delta) − now)`; in `Nat`
the result is never negative by construction. -/
theorem claim_C3 (path_regex : String → Bool) (d : Nat) (f : ResolvedFile)
    (now : Nat) :
    (f.modified = none →
      (CacheRule.ModificationTimePlusDeltaCacheHeaderRule path_regex
          d).build_cache_header f now = some 0)
    ∧ ∀ T, f.modified = some T →
        (CacheRule.ModificationTimePlusDeltaCacheHeaderRule path_regex
            d).build_cache_header f now
          = some ((max 0 ((T : Int) + (d : Int) - (now : Int))).toNat) := by
  constructor
  · intro hmod
    simp [CacheRule.build_cache_header, hmod]
  · intro T hmod
    simp only [CacheRule.build_cache_header, hmod]
    congr 1
    omega

/-- Witness for C3: delta 900, unknown modification time gives 0; a file
modified at 100 with `now = 2000` gives 0 (already expired), and with
`now = 500` gives 500. -/
theorem claim_C3_witness :
    (CacheRule.ModificationTimePlusDeltaCacheHeaderRule (fun _ => true)
        900).build_cache_header (ResolvedFile.mk (some "x") none) 0 = some 0
    ∧ (CacheRule.ModificationTimePlusDeltaCacheHeaderRule (fun _ => true)
        900).build_cache_header (ResolvedFile.mk (some "x") (some 100)) 2000
        = some ((max 0 ((100 : Int) + (900 : Int) - (2000 : Int))).toNat)
    ∧ (CacheRule.ModificationTimePlusDeltaCacheHeaderRule (fun _ => true)
        900).build_cache_header (ResolvedFile.mk (some "x") (some 100)) 500
        = some ((max 0 ((100 : Int) + (900 : Int) - (500 : Int))).toNat) :=
  ⟨(claim_C3 (fun _ => true) 900 (ResolvedFile.mk (some "x") none) 0).1 rfl,
   (claim_C3 (fun _ => true) 900 (ResolvedFile.mk (some "x") (some 100)) 2000).2
      100 rfl,
   (claim_C3 (fun _ => true) 900 (ResolvedFile.mk (some "x") (some 100)) 500).2
      100 rfl⟩

/-- C10: for a vnstat PNG with known modification time, the handler
truncates the remaining freshness to whole seconds and applies the
`u64 → u32` conversion with fallback 0: a whole-second count above
`u32::MAX` yields `some 0`, not an error and not a saturated maximum. -/
theorem claim_C10 (h : StaticFileHandler) (f : ResolvedFile) (p : String)
    (T now : Nat) (hpath : f.pathStr = some p)
    (hv : vnstatPngPattern p = true) (hmod : f.modified = some T) :
    h.build_cache_headers (ResolveResult.Found f) now
        = some (if ((T + VNSTAT_PNG_CACHE_DURATION) - now) / 1000000000 ≤ U32_MAX
                then ((T + VNSTAT_PNG_CACHE_DURATION) - now) / 1000000000
                else 0)
    ∧ (U32_MAX < ((T + VNSTAT_PNG_CACHE_DURATION) - now) / 1000000000 →
        h.build_cache_headers (ResolveResult.Found f) now = some 0) := by
  rw [vnstatPngPattern] at hv
  have hmain : h.build_cache_headers (ResolveResult.Found f) now
      = some (if ((T + VNSTAT_PNG_CACHE_DURATION) - now) / 1000000000 ≤ U32_MAX
              then ((T + VNSTAT_PNG_CACHE_DURATION) - now) / 1000000000
              else 0) := by
    simp [StaticFileHandler.build_cache_headers, hpath, hmod, hv]
  refine ⟨hmain, fun hbig => ?_⟩
  rw [hmain, if_neg (by omega)]

/-- Witness for C10: a vnstat PNG whose remaining freshness is about
5 × 10⁹ seconds, beyond `u32::MAX`, gets cache duration 0. -/
theorem claim_C10_witness :
    vnstatPngPattern "vnstat/a.png" = true
    ∧ U32_MAX < ((5000000000 * 1000000000 + VNSTAT_PNG_CACHE_DURATION) - 0)
        / 1000000000
    ∧ (StaticFileHandler.mk "/error").build_cache_headers
        (ResolveResult.Found
          (ResolvedFile.mk (some "vnstat/a.png")
            (some (5000000000 * 1000000000)))) 0 = some 0 :=
  ⟨by decide, by decide,
   (claim_C10 (StaticFileHandler.mk "/error")
      (ResolvedFile.mk (some "vnstat/a.png") (some (5000000000 * 1000000000)))
      "vnstat/a.png" (5000000000 * 1000000000) 0 rfl (by decide) rfl).2
      (by decide)⟩

/-- C2 (amended): for every resolved file the handler serves, the handler's
hardcoded cache computation agrees with the rule engine configured with the
mirroring rules only up to the handler's truncation: the handler's value is
the engine duration's whole-second count when that count fits in `u32`, and
`0` otherwise. -/
theorem claim_C2 (h : StaticFileHandler) (f : ResolvedFile) (now : Nat) :
    h.build_cache_headers (ResolveResult.Found f) now
      = (handlerCacheRules.build_cache_header f now).map
          (fun d => if d / 1000000000 ≤ U32_MAX then d / 1000000000 else 0) := by
  cases hv : vnstatPngPattern (f.pathStr.getD "") with
  | false =>
      have hv2 : (strContainsSub (f.pathStr.getD "") "vnstat/"
          && strHasTail (f.pathStr.getD "") ".png") = false := hv
      simp [StaticFileHandler.build_cache_headers,
        StaticFileRulesService.build_cache_header, handlerCacheRules,
        CacheRule.matches, CacheRule.build_cache_header, List.find?, hv, hv2,
        DEFAULT_CACHE_DURATION_SECONDS, U32_MAX]
  | true =>
      have hv2 : (strContainsSub (f.pathStr.getD "") "vnstat/"
          && strHasTail (f.pathStr.getD "") ".png") = true := hv
      cases hm : f.modified with
      | none =>
          simp [StaticFileHandler.build_cache_headers,
            StaticFileRulesService.build_cache_header, handlerCacheRules,
            CacheRule.matches, CacheRule.build_cache_header, List.find?, hv,
            hv2, hm, U32_MAX]
      | some modified =>
          simp [StaticFileHandler.build_cache_headers,
            StaticFileRulesService.build_cache_header, handlerCacheRules,
            CacheRule.matches, CacheRule.build_cache_header, List.find?, hv,
            hv2, hm]

/-- C2 counterexample: a vnstat PNG whose remaining freshness is
2³² + 900 seconds.  The handler attaches cache duration 0 (the `u32`
conversion fallback) while the rule engine computes the full
(2³² + 900)-second duration, so the response's duration does not equal the
engine's duration. -/
theorem claim_C2_counterexample :
    (StaticFileHandler.mk "/error").build_cache_headers
        (ResolveResult.Found (ResolvedFile.mk (some "vnstat/a.png")
          (some (4294967296 * 1000000000)))) 0 = some 0
    ∧ handlerCacheRules.build_cache_header
        (ResolvedFile.mk (some "vnstat/a.png") (some (4294967296 * 1000000000)))
        0 = some (4294968196 * 1000000000)
    ∧ Option.map (fun secsVal => secsVal * 1000000000)
        ((StaticFileHandler.mk "/error").build_cache_headers
          (ResolveResult.Found (ResolvedFile.mk (some "vnstat/a.png")
            (some (4294967296 * 1000000000)))) 0)
        ≠ some (4294968196 * 1000000000) :=
  ⟨by decide, by decide, by decide⟩

theorem find?_append_all_false {α : Type} (p : α → Bool) (l1 l2 : List α)
    (h : ∀ x ∈ l1, p x = false) : (l1 ++ l2).find? p = l2.find? p := by
  induction l1 with
  | nil => simp
  | cons a as ih =>
      have ha : p a = false := h a (List.mem_cons_self a as)
      simp only [List.cons_append, List.find?, ha]
      exact ih (fun x hx => h x (List.mem_cons_of_mem a hx))

/-- C4: the rule engine returns the duration computed by the first rule, in
configured order, whose pattern matches the resolved path; rules after the
first match never influence the result; with no matching rule it returns no
caching directive. -/
theorem claim_C4 (pre post post2 : List CacheRule) (r : CacheRule)
    (f : ResolvedFile) (now : Nat)
    (hpre : ∀ r2 ∈ pre, r2.matches (f.pathStr.getD "") = false)
    (hr : r.matches (f.pathStr.getD "") = true) :
    (StaticFileRulesService.mk (pre ++ r :: post)).build_cache_header f now
        = r.build_cache_header f now
    ∧ (StaticFileRulesService.mk (pre ++ r :: post)).build_cache_header f now
        = (StaticFileRulesService.mk (pre ++ r :: post2)).build_cache_header
            f now
    ∧ ∀ rules : List CacheRule,
        (∀ r2 ∈ rules, r2.matches (f.pathStr.getD "") = false) →
        (StaticFileRulesService.mk rules).build_cache_header f now = none := by
  have hfind : ∀ p3 : List CacheRule,
      ((pre ++ r :: p3).find?
        (fun rule => rule.matches (f.pathStr.getD ""))) = some r := by
    intro p3
    rw [find?_append_all_false _ _ _ hpre]
    simp [List.find?, hr]
  refine ⟨?_, ?_, ?_⟩
  · simp [StaticFileRulesService.build_cache_header, hfind]
  · simp [StaticFileRulesService.build_cache_header, hfind]
  · intro rules hall
    have hnone : rules.find?
        (fun rule => rule.matches (f.pathStr.getD "")) = none :=
      List.find?_eq_none.mpr (fun x hx => by simp [hall x hx])
    simp [StaticFileRulesService.build_cache_header, hnone]

/-- Witness for C4: with a non-matching rule first, a matching
`FixedTime 3600` rule wins for `assets/app.js` whatever comes after it, and
a list of only non-matching rules yields no directive. -/
theorem claim_C4_witness :
    pngOnlyRule.matches (appJsFile.pathStr.getD "") = false
    ∧ catchAllRule.matches (appJsFile.pathStr.getD "") = true
    ∧ (StaticFileRulesService.mk
        ([pngOnlyRule] ++ catchAllRule :: [extraRule])).build_cache_header
          appJsFile 0 = some 3600
    ∧ (StaticFileRulesService.mk
        ([pngOnlyRule] ++ catchAllRule :: [extraRule])).build_cache_header
          appJsFile 0
        = (StaticFileRulesService.mk
            ([pngOnlyRule] ++ catchAllRule :: [])).build_cache_header
              appJsFile 0
    ∧ (StaticFileRulesService.mk [pngOnlyRule]).build_cache_header
        appJsFile 0 = none :=
  ⟨by decide, by decide,
   (claim_C4 [pngOnlyRule] [extraRule] [] catchAllRule appJsFile 0
      (by decide) (by decide)).1,
   (claim_C4 [pngOnlyRule] [extraRule] [] catchAllRule appJsFile 0
      (by decide) (by decide)).2.1,
   (claim_C4 [pngOnlyRule] [extraRule] [] catchAllRule appJsFile 0
      (by decide) (by decide)).2.2 [pngOnlyRule] (by decide)⟩

/-- C6: with the configured timer list
`[connection_max_lifetime, connection_graceful_shutdown_timeout]`, a
connection whose protocol engine never completes receives exactly one
graceful-shutdown signal per timer, in configured order, after which the
handler stops; if the engine completes before a timer fires, no further
signal is issued. -/
theorem claim_C6 (cfg : ServerConfiguration) (engine_completes : Nat → Bool) :
    ((∀ i, engine_completes i = false) →
      (ConnectionHandler.new cfg).handle_connection engine_completes
        = [(0, cfg.connection_max_lifetime),
           (1, cfg.connection_graceful_shutdown_timeout)])
    ∧ (engine_completes 0 = true →
      (ConnectionHandler.new cfg).handle_connection engine_completes = [])
    ∧ (engine_completes 0 = false → engine_completes 1 = true →
      (ConnectionHandler.new cfg).handle_connection engine_completes
        = [(0, cfg.connection_max_lifetime)]) := by
  refine ⟨fun hnever => ?_, fun h0 => ?_, fun h0 h1 => ?_⟩
  · simp [ConnectionHandler.new, ConnectionHandler.handle_connection,
      timeoutLoop, hnever 0, hnever 1]
  · simp [ConnectionHandler.new, ConnectionHandler.handle_connection,
      timeoutLoop, h0]
  · simp [ConnectionHandler.new, ConnectionHandler.handle_connection,
      timeoutLoop, h0, h1]

/-- Witness for C6 with timers 5 and 7: a never-completing engine gets the
two signals in order; an immediately completing engine gets none; an engine
completing during the second race gets exactly the first signal. -/
theorem claim_C6_witness :
    ((fun _ : Nat => false) 0 = false)
    ∧ (ConnectionHandler.new (ServerConfiguration.mk 5 7)).handle_connection
        (fun _ => false) = [(0, 5), (1, 7)]
    ∧ (ConnectionHandler.new (ServerConfiguration.mk 5 7)).handle_connection
        (fun _ => true) = []
    ∧ (ConnectionHandler.new (ServerConfiguration.mk 5 7)).handle_connection
        (fun i => i == 1) = [(0, 5)] :=
  ⟨rfl,
   (claim_C6 (ServerConfiguration.mk 5 7) (fun _ => false)).1 (fun _ => rfl),
   (claim_C6 (ServerConfiguration.mk 5 7) (fun _ => true)).2.1 rfl,
   (claim_C6 (ServerConfiguration.mk 5 7) (fun i => i == 1)).2.2 rfl rfl⟩

/-- C8: `Server::run` always performs the socket-file removal before the
bind; when the path does not exist the removal fails yet binding proceeds
and succeeds; when a socket file pre-exists (where a direct bind would
fail), the prior removal makes the bind succeed.  Only the bind's own
outcome is the reported result. -/
theorem claim_C8 (fs : FileSystem) (path : String) :
    (Server.run fs path).1
        = [ServerEvent.removeFileCall path, ServerEvent.bindCall path]
    ∧ (fs.socketFileAt path = false →
        (remove_file fs path).2 = Except.error ()
        ∧ exceptIsOk (Server.run fs path).2 = true)
    ∧ (fs.socketFileAt path = true →
        UnixListener.bind fs path = Except.error ()
        ∧ exceptIsOk (Server.run fs path).2 = true) := by
  refine ⟨rfl, fun hno => ⟨?_, ?_⟩, fun hyes => ⟨?_, ?_⟩⟩
  · simp [remove_file, hno]
  · simp [Server.run, remove_file, UnixListener.bind, hno, exceptIsOk]
  · simp [UnixListener.bind, hyes]
  · simp [Server.run, remove_file, UnixListener.bind, hyes, exceptIsOk]

/-- Witness for C8: an empty filesystem (removal fails, bind succeeds) and a
filesystem with a stale socket file (direct bind would fail, run still
succeeds). -/
theorem claim_C8_witness :
    (FileSystem.mk (fun _ => false)).socketFileAt "/tmp/socket" = false
    ∧ exceptIsOk
        (Server.run (FileSystem.mk (fun _ => false)) "/tmp/socket").2 = true
    ∧ (FileSystem.mk (fun _ => true)).socketFileAt "/tmp/socket" = true
    ∧ UnixListener.bind (FileSystem.mk (fun _ => true)) "/tmp/socket"
        = Except.error ()
    ∧ exceptIsOk
        (Server.run (FileSystem.mk (fun _ => true)) "/tmp/socket").2 = true :=
  ⟨rfl,
   ((claim_C8 (FileSystem.mk (fun _ => false)) "/tmp/socket").2.1 rfl).2,
   rfl,
   ((claim_C8 (FileSystem.mk (fun _ => true)) "/tmp/socket").2.2 rfl).1,
   ((claim_C8 (FileSystem.mk (fun _ => true)) "/tmp/socket").2.2 rfl).2⟩

theorem dtoLe_trans (a b c : ConnectionInfoDTO) (hab : dtoLe a b)
    (hbc : dtoLe b c) : dtoLe a c := by
  simp only [dtoLe, decide_eq_true_eq] at hab hbc ⊢
  omega

theorem dtoLe_total (a b : ConnectionInfoDTO) : dtoLe a b || dtoLe b a := by
  simp only [dtoLe, Bool.or_eq_true, decide_eq_true_eq]
  omega

theorem handle_perm (fmt : Nat → String) (tracked : List ConnectionInfo) :
    (ConnectionInfoHandler.handle fmt tracked).Perm
      (tracked.map (connectionInfoToDTO fmt)) :=
  List.mergeSort_perm (tracked.map (connectionInfoToDTO fmt)) dtoLe

theorem handle_sorted (fmt : Nat → String) (tracked : List ConnectionInfo) :
    List.Sorted (fun a b : ConnectionInfoDTO =>
      a.connection_id ≤ b.connection_id)
      (ConnectionInfoHandler.handle fmt tracked) := by
  have hpair : (ConnectionInfoHandler.handle fmt tracked).Pairwise
      (fun a b => dtoLe a b) :=
    List.sorted_mergeSort (fun a b c => dtoLe_trans a b c)
      (fun a b => dtoLe_total a b) (tracked.map (connectionInfoToDTO fmt))
  exact hpair.imp (fun hab => by
    simpa only [dtoLe, decide_eq_true_eq] using hab)

theorem handle_sorted_strict (fmt : Nat → String)
    (tracked : List ConnectionInfo)
    (hnodup : (tracked.map ConnectionInfo.connection_id).Nodup) :
    List.Sorted (fun a b : ConnectionInfoDTO =>
      a.connection_id < b.connection_id)
      (ConnectionInfoHandler.handle fmt tracked) := by
  have hids : (tracked.map (connectionInfoToDTO fmt)).map
      (fun c => c.connection_id) = tracked.map ConnectionInfo.connection_id := by
    simp [connectionInfoToDTO]
  have hnd2 : ((tracked.map (connectionInfoToDTO fmt)).map
      (fun c : ConnectionInfoDTO => c.connection_id)).Nodup := by
    rw [hids]; exact hnodup
  have hndout : ((ConnectionInfoHandler.handle fmt tracked).map
      (fun c : ConnectionInfoDTO => c.connection_id)).Nodup :=
    (((handle_perm fmt tracked).map
      (fun c : ConnectionInfoDTO => c.connection_id)).nodup_iff).mpr hnd2
  have hndout2 : (ConnectionInfoHandler.handle fmt tracked).Pairwise
      (fun a b : ConnectionInfoDTO => a.connection_id ≠ b.connection_id) :=
    List.pairwise_map.mp hndout
  exact ((handle_sorted fmt tracked).and hndout2).imp
    (fun hab => Nat.lt_of_le_of_ne hab.1 hab.2)

/-- C7: the connection-info handler's output has one entry per tracked
connection, is sorted ascending by `connection_id`, and is the same list for
any two snapshot orders of the same connections (given the tracker's
unique-id invariant). -/
theorem claim_C7 (fmt : Nat → String) (tracked tracked2 : List ConnectionInfo)
    (hperm : tracked.Perm tracked2)
    (hnodup : (tracked.map ConnectionInfo.connection_id).Nodup) :
    (ConnectionInfoHandler.handle fmt tracked).Perm
        (tracked.map (connectionInfoToDTO fmt))
    ∧ List.Sorted (fun a b : ConnectionInfoDTO =>
        a.connection_id ≤ b.connection_id)
        (ConnectionInfoHandler.handle fmt tracked)
    ∧ ConnectionInfoHandler.handle fmt tracked
        = ConnectionInfoHandler.handle fmt tracked2 := by
  have hnodup2 : (tracked2.map ConnectionInfo.connection_id).Nodup :=
    ((hperm.map ConnectionInfo.connection_id).nodup_iff).mp hnodup
  refine ⟨handle_perm fmt tracked, handle_sorted fmt tracked, ?_⟩
  have hp : (ConnectionInfoHandler.handle fmt tracked).Perm
      (ConnectionInfoHandler.handle fmt tracked2) :=
    ((handle_perm fmt tracked).trans
      (hperm.map (connectionInfoToDTO fmt))).trans
      (handle_perm fmt tracked2).symm
  haveI : IsAntisymm ConnectionInfoDTO
      (fun a b => a.connection_id < b.connection_id) :=
    ⟨fun a b hab hba => absurd hba (Nat.lt_asymm hab)⟩
  exact List.eq_of_perm_of_sorted hp
    (handle_sorted_strict fmt tracked hnodup)
    (handle_sorted_strict fmt tracked2 hnodup2)

/-- Witness for C7: the spec's scenario with connection ids 3 and 1, added
in either order, gives the same sorted output. -/
theorem claim_C7_witness :
    ([ConnectionInfo.mk 3 0 ServerProtocol.Http1,
      ConnectionInfo.mk 1 0 ServerProtocol.Http2] :
        List ConnectionInfo).Perm
      [ConnectionInfo.mk 1 0 ServerProtocol.Http2,
       ConnectionInfo.mk 3 0 ServerProtocol.Http1]
    ∧ ([ConnectionInfo.mk 3 0 ServerProtocol.Http1,
        ConnectionInfo.mk 1 0 ServerProtocol.Http2].map
          ConnectionInfo.connection_id).Nodup
    ∧ ConnectionInfoHandler.handle (fun _ => "t")
        [ConnectionInfo.mk 3 0 ServerProtocol.Http1,
         ConnectionInfo.mk 1 0 ServerProtocol.Http2]
      = ConnectionInfoHandler.handle (fun _ => "t")
        [ConnectionInfo.mk 1 0 ServerProtocol.Http2,
         ConnectionInfo.mk 3 0 ServerProtocol.Http1] :=
  ⟨by decide, by decide,
   (claim_C7 (fun _ => "t")
      [ConnectionInfo.mk 3 0 ServerProtocol.Http1,
       ConnectionInfo.mk 1 0 ServerProtocol.Http2]
      [ConnectionInfo.mk 1 0 ServerProtocol.Http2,
       ConnectionInfo.mk 3 0 ServerProtocol.Http1]
      (by decide) (by decide)).2.2⟩
